import Mathlib

/-! Shallow embedding of the Micro-Orchestrator Node Agent:
    the process supervisor and metrics engine of src/agent/node_agent.cpp
    and the HTTP front end (HttpServer) of src/unnamed/part_000.
    Machine doubles are modelled as exact rationals; on every path we prove,
    the guards of the source make each division have a nonzero denominator,
    so the rational model agrees with IEEE double evaluation on signs,
    zero results and range questions. Side effects (signals, sleeps, fork)
    are recorded as an explicit event trace in program order. -/

/-- Process record stored in the Node Agent process table
    (struct ProcessInfo in the node_agent header). -/
structure ProcessInfo where
  pid : Int
  command : String
  start_time : String
  status : String
  deriving DecidableEq

/-- The process table: a std::map from pid to ProcessInfo, modelled as an
    association list sorted by key (std::map iterates in key order). -/
abbrev ProcTable := List (Int × ProcessInfo)

/-- Lookup in the table, modelling running_processes.find(pid). -/
def tfind : ProcTable → Int → Option ProcessInfo
  | [], _ => none
  | (k, v) :: rest, p => if p = k then some v else tfind rest p

/-- Sorted insert-or-assign, modelling running_processes[pid] = info. -/
def tinsert : ProcTable → Int → ProcessInfo → ProcTable
  | [], k, v => [(k, v)]
  | (k2, v2) :: rest, k, v =>
    if k < k2 then (k, v) :: (k2, v2) :: rest
    else if k = k2 then (k, v) :: rest
    else (k2, v2) :: tinsert rest k v

/-- Erase the entry with the given key, modelling running_processes.erase. -/
def terase : ProcTable → Int → ProcTable
  | [], _ => []
  | (k2, v2) :: rest, k => if k = k2 then rest else (k2, v2) :: terase rest k

/-- Observable side effects of the supervisor, in program order. -/
inductive Event where
  | forkAttempt (script_path : String)
  | sigterm (pid : Int)
  | sleepMs (ms : Nat)
  | liveProbe (pid : Int)
  | sigkill (pid : Int)
  deriving DecidableEq

/-- Outcomes of the two kill system calls made by stop_process:
    whether kill(pid, SIGTERM) returned 0, and whether the zero-signal
    liveness test kill(pid, 0) after the grace period returned 0. -/
structure KillOracle where
  termDelivered : Bool
  aliveAfterGrace : Bool
  deriving DecidableEq

/-- NodeAgent::stop_process. Looks the pid up; if absent returns false.
    Otherwise sends SIGTERM; if delivery succeeded it sleeps 500 ms, probes
    liveness with signal 0, sends SIGKILL when the probe succeeds, erases
    the record and returns true. If SIGTERM delivery failed it returns
    false leaving the table unchanged. The event list is the exact
    sequence of effects up to the return. -/
def stop_process (tbl : ProcTable) (pid : Int) (k : KillOracle) :
    Bool × ProcTable × List Event :=
  match tfind tbl pid with
  | none => (false, tbl, [])
  | some _ =>
    if k.termDelivered then
      if k.aliveAfterGrace then
        (true, terase tbl pid,
          [Event.sigterm pid, Event.sleepMs 500, Event.liveProbe pid, Event.sigkill pid])
      else
        (true, terase tbl pid,
          [Event.sigterm pid, Event.sleepMs 500, Event.liveProbe pid])
    else
      (false, tbl, [Event.sigterm pid])

/-- NodeAgent::start_process, seen from the parent. forkResult is what
    fork() returned to the parent: a positive child pid, or a negative
    value on failure. On success the record is inserted with key equal to
    the child pid and status "RUNNING"; on failure -1 is returned and the
    table is untouched. The fork call itself is always recorded. -/
def start_process (tbl : ProcTable) (script_path : String) (forkResult : Int)
    (now : String) : Int × ProcTable × List Event :=
  if 0 < forkResult then
    (forkResult,
     tinsert tbl forkResult ⟨forkResult, script_path, now, "RUNNING"⟩,
     [Event.forkAttempt script_path])
  else
    (-1, tbl, [Event.forkAttempt script_path])

/-- NodeAgent::get_running_processes: the table values in key order. -/
def get_running_processes (tbl : ProcTable) : List ProcessInfo :=
  tbl.map (fun pair => pair.2)

/-- NodeAgent::cleanup_zombie_processes: drop every record whose pid no
    longer answers the zero-signal liveness test. alive says whether
    kill(pid, 0) returned 0 for that pid. -/
def cleanup_zombie_processes (alive : Int → Bool) (tbl : ProcTable) : ProcTable :=
  tbl.filter (fun pair => alive pair.1)

/-- One parsed line of aggregate CPU counters from the kernel stat file. -/
structure CpuSample where
  user : Int
  nice : Int
  system : Int
  idle : Int
  iowait : Int
  irq : Int
  softirq : Int
  steal : Int
  deriving DecidableEq

/-- total_time = user + nice + system + idle + iowait + irq + softirq + steal. -/
def cpuTotal (s : CpuSample) : Int :=
  s.user + s.nice + s.system + s.idle + s.iowait + s.irq + s.softirq + s.steal

/-- idle_time = idle + iowait. -/
def cpuIdle (s : CpuSample) : Int :=
  s.idle + s.iowait

/-- The process-wide prior-sample state of the CPU calculation
    (fields prev_total_time and prev_idle_time of NodeAgent). -/
structure CpuState where
  prev_total_time : Int
  prev_idle_time : Int
  deriving DecidableEq

/-- Constructor initialisation: prev_total_time(0), prev_idle_time(0). -/
def cpuInit : CpuState := ⟨0, 0⟩

/-- NodeAgent::calculate_cpu_usage. input is none when the stat file
    cannot be opened or has no line; otherwise the parsed counters.
    Returns the reported usage and the updated prior-sample state. -/
def calculate_cpu_usage (st : CpuState) (input : Option CpuSample) : ℚ × CpuState :=
  match input with
  | none => (0, st)
  | some s =>
    if 0 < st.prev_total_time then
      if 0 < cpuTotal s - st.prev_total_time then
        (100 * (1 - ((cpuIdle s - st.prev_idle_time : Int) : ℚ) /
            ((cpuTotal s - st.prev_total_time : Int) : ℚ)),
         ⟨cpuTotal s, cpuIdle s⟩)
      else (0, ⟨cpuTotal s, cpuIdle s⟩)
    else (0, ⟨cpuTotal s, cpuIdle s⟩)

/-- NodeAgent::calculate_memory_usage. input is none when meminfo cannot
    be opened; otherwise the pair (total_memory, available_memory) parsed
    from it (each 0 when its line is missing). -/
def calculate_memory_usage (input : Option (Int × Int)) : ℚ :=
  match input with
  | none => 0
  | some (total_memory, available_memory) =>
    if 0 < total_memory then
      100 * (1 - (available_memory : ℚ) / (total_memory : ℚ))
    else 0

/-- Outputs of a sequence of calculate_cpu_usage calls on successive
    parsed samples, threading the prior-sample state. -/
def cpuRunOutputs (st : CpuState) : List CpuSample → List ℚ
  | [] => []
  | s :: rest =>
    (calculate_cpu_usage st (some s)).1 ::
      cpuRunOutputs (calculate_cpu_usage st (some s)).2 rest

/-- Pointwise monotonicity of the eight kernel CPU counters, as holds for
    real successive reads of the kernel stat file. -/
def sampleLE (a b : CpuSample) : Prop :=
  a.user ≤ b.user ∧ a.nice ≤ b.nice ∧ a.system ≤ b.system ∧ a.idle ≤ b.idle ∧
    a.iowait ≤ b.iowait ∧ a.irq ≤ b.irq ∧ a.softirq ≤ b.softirq ∧ a.steal ≤ b.steal

instance : DecidableRel sampleLE := fun a b =>
  inferInstanceAs (Decidable (a.user ≤ b.user ∧ a.nice ≤ b.nice ∧
    a.system ≤ b.system ∧ a.idle ≤ b.idle ∧ a.iowait ≤ b.iowait ∧
    a.irq ≤ b.irq ∧ a.softirq ≤ b.softirq ∧ a.steal ≤ b.steal))

/-- Does pat occur as a leading segment of hay? (helper for substring search). -/
def listLeads : List Char → List Char → Bool
  | [], _ => true
  | _ :: _, [] => false
  | p :: ps, c :: cs => p = c && listLeads ps cs

/-- First index at or after i where pat occurs in hay (helper). -/
def strFindAux (pat : List Char) : List Char → Nat → Option Nat
  | [], i => if listLeads pat [] then some i else none
  | c :: rest, i =>
    if listLeads pat (c :: rest) then some i else strFindAux pat rest (i + 1)

/-- std::string::find, returning none for npos. -/
def strFind (hay pat : List Char) : Option Nat :=
  strFindAux pat hay 0

/-- Skip the space and tab characters accepted by the field scanner. -/
def skipWsJson : List Char → List Char
  | [] => []
  | c :: rest => if c = ' ' ∨ c = '\t' then skipWsJson rest else c :: rest

/-- HttpServer::parse_json_field: ad-hoc scan for "field": followed by a
    quoted string or a run of digit, dot and minus characters. Returns the
    empty string when the field is absent or unparsable. -/
def parse_json_field (json field : String) : String :=
  let pat : List Char := '"' :: (field.data ++ ['"', ':'])
  match strFind json.data pat with
  | none => ""
  | some pos =>
    match skipWsJson (json.data.drop (pos + pat.length)) with
    | [] => ""
    | c :: r =>
      if c = '"' then
        match strFind r ['"'] with
        | none => ""
        | some e => String.mk (r.take e)
      else
        String.mk ((c :: r).takeWhile (fun ch => ch.isDigit || ch = '.' || ch = '-'))

/-- The whitespace class skipped by strtol before the number. -/
def isSpaceChar (c : Char) : Bool :=
  c = ' ' || c = '\t' || c = '\n' || c = '\x0b' || c = '\x0c' || c = '\r'

/-- std::stoi: optional whitespace, optional sign, at least one decimal
    digit; none models the thrown exception (no digits, or the value does
    not fit in a 32-bit int). -/
def stoi (s : String) : Option Int :=
  let l := s.data.dropWhile isSpaceChar
  let signAndRest : Int × List Char :=
    match l with
    | '+' :: r => (1, r)
    | '-' :: r => (-1, r)
    | r => (1, r)
  let ds := signAndRest.2.takeWhile Char.isDigit
  if ds.isEmpty then none
  else
    let v : Nat := ds.foldl (fun a c => a * 10 + (c.toNat - 48)) 0
    let n : Int := signAndRest.1 * (v : Int)
    if n < -2147483648 ∨ 2147483647 < n then none else some n

/-- An HTTP response, reduced to the status code and JSON body; the header
    serialization of create_json_response carries no further state. -/
structure HttpResponse where
  status_code : Nat
  body : String
  deriving DecidableEq

/-- HttpServer::create_json_response, keeping code and body. -/
def create_json_response (data : String) (code : Nat) : HttpResponse :=
  ⟨code, data⟩

/-- HttpServer::create_error_response. -/
def create_error_response (e : String) (code : Nat) : HttpResponse :=
  create_json_response ("\x7b\"error\":\"" ++ e ++ "\"\x7d") code

/-- HttpServer::handle_start_request: extract script_path; empty means 400
    with nothing done; otherwise call start_process and answer 200 with
    the pid or 500 on spawn failure. Returns response, table and events. -/
def handle_start_request (tbl : ProcTable) (body : String) (forkResult : Int)
    (now : String) : HttpResponse × ProcTable × List Event :=
  let script_path := parse_json_field body "script_path"
  if script_path = "" then
    (create_error_response "Missing script_path field" 400, tbl, [])
  else
    let r := start_process tbl script_path forkResult now
    if 0 < r.1 then
      (create_json_response
        ("\x7b\"pid\":" ++ toString r.1 ++ ",\"status\":\"started\"\x7d") 200,
       r.2.1, r.2.2)
    else
      (create_error_response "Failed to start process" 500, r.2.1, r.2.2)

/-- HttpServer::handle_stop_request: extract pid; empty means 400; a stoi
    failure means 400; otherwise call stop_process and answer 200 on true
    and 500 on false. Returns response, table and events. -/
def handle_stop_request (tbl : ProcTable) (body : String) (k : KillOracle) :
    HttpResponse × ProcTable × List Event :=
  let pid_str := parse_json_field body "pid"
  if pid_str = "" then
    (create_error_response "Missing pid field" 400, tbl, [])
  else
    match stoi pid_str with
    | none => (create_error_response "Invalid PID format" 400, tbl, [])
    | some pid =>
      let r := stop_process tbl pid k
      if r.1 then
        (create_json_response "\x7b\"status\":\"stopped\"\x7d" 200, r.2.1, r.2.2)
      else
        (create_error_response "Failed to stop process" 500, r.2.1, r.2.2)

/-- System metrics snapshot (struct SystemMetrics). -/
structure SystemMetrics where
  cpu_usage : ℚ
  memory_usage : ℚ
  total_memory : Int
  available_memory : Int
  running_processes : Nat
  deriving DecidableEq

/-- The Node Agent state the claims touch: the process table and the
    prior CPU sample. -/
structure AgentState where
  tbl : ProcTable
  cpu : CpuState
  deriving DecidableEq

/-- NodeAgent::get_system_metrics: computes both usages and copies the
    parsed meminfo totals and the table size; only the CPU prior-sample
    state is mutated. -/
def get_system_metrics (st : AgentState) (cpuIn : Option CpuSample)
    (memIn : Option (Int × Int)) : SystemMetrics × AgentState :=
  let r := calculate_cpu_usage st.cpu cpuIn
  let tm : Int := match memIn with | none => 0 | some (t, _) => t
  let am : Int := match memIn with | none => 0 | some (_, a) => a
  (⟨r.1, calculate_memory_usage memIn, tm, am, st.tbl.length⟩, ⟨st.tbl, r.2⟩)

/-- HttpServer::handle_status_request: a metrics snapshot paired with the
    process list; only the CPU prior-sample state changes. -/
def handle_status_request (st : AgentState) (cpuIn : Option CpuSample)
    (memIn : Option (Int × Int)) :
    (SystemMetrics × List ProcessInfo) × AgentState :=
  let m := get_system_metrics st cpuIn memIn
  ((m.1, get_running_processes st.tbl), m.2)

/-- The operations that mutate the process table, with their oracles. -/
inductive AgentOp where
  | start (script_path : String) (forkResult : Int) (now : String)
  | stop (pid : Int) (k : KillOracle)
  | snapshot
  | reap (alive : Int → Bool)

/-- Effect of one operation on the process table. -/
def applyOp (tbl : ProcTable) : AgentOp → ProcTable
  | AgentOp.start p f n => (start_process tbl p f n).2.1
  | AgentOp.stop pid k => (stop_process tbl pid k).2.1
  | AgentOp.snapshot => tbl
  | AgentOp.reap alive => cleanup_zombie_processes alive tbl

/-- Table well-formedness: every entry is stored under its own pid and
    carries status "RUNNING". -/
def tableInv (tbl : ProcTable) : Prop :=
  ∀ e ∈ tbl, e.2.pid = e.1 ∧ e.2.status = "RUNNING"

/-- Every call of calculate_cpu_usage on a parsed sample leaves the
    prior-sample state holding exactly that sample's totals. -/
theorem cpu_state_after (st : CpuState) (s : CpuSample) :
    (calculate_cpu_usage st (some s)).2 = ⟨cpuTotal s, cpuIdle s⟩ := by
  simp only [calculate_cpu_usage]
  split_ifs <;> rfl

/-- C5: starting from the initial prior-sample state, the first read
    reports 0, and the read after a prior sample s1 with positive total
    and positive total delta reports exactly
    100 * (1 - (idle delta) / (total delta)). -/
theorem cpu_usage_delta_formula (s1 s2 : CpuSample)
    (h1 : 0 < cpuTotal s1) (h2 : cpuTotal s1 < cpuTotal s2) :
    (calculate_cpu_usage cpuInit (some s1)).1 = 0 ∧
      (calculate_cpu_usage (calculate_cpu_usage cpuInit (some s1)).2 (some s2)).1 =
        100 * (1 - ((cpuIdle s2 - cpuIdle s1 : Int) : ℚ) /
          ((cpuTotal s2 - cpuTotal s1 : Int) : ℚ)) := by
  constructor
  · simp [calculate_cpu_usage, cpuInit]
  · rw [cpu_state_after]
    simp only [calculate_cpu_usage]
    rw [if_pos h1, if_pos (by omega : (0 : Int) < cpuTotal s2 - cpuTotal s1)]

/-- Witness for C5 at two concrete samples. -/
theorem cpu_usage_delta_formula_witness :
    (calculate_cpu_usage cpuInit (some ⟨1, 0, 0, 0, 0, 0, 0, 0⟩)).1 = 0 ∧
      (calculate_cpu_usage
          (calculate_cpu_usage cpuInit (some ⟨1, 0, 0, 0, 0, 0, 0, 0⟩)).2
          (some ⟨2, 0, 0, 0, 0, 0, 0, 0⟩)).1 =
        100 * (1 - ((cpuIdle ⟨2, 0, 0, 0, 0, 0, 0, 0⟩ -
            cpuIdle ⟨1, 0, 0, 0, 0, 0, 0, 0⟩ : Int) : ℚ) /
          ((cpuTotal ⟨2, 0, 0, 0, 0, 0, 0, 0⟩ -
            cpuTotal ⟨1, 0, 0, 0, 0, 0, 0, 0⟩ : Int) : ℚ)) :=
  cpu_usage_delta_formula ⟨1, 0, 0, 0, 0, 0, 0, 0⟩ ⟨2, 0, 0, 0, 0, 0, 0, 0⟩
    (by decide) (by decide)

/-- C6: when the total counter delta between two successive samples is 0,
    the returned usage is exactly 0; the division guard is never taken, so
    no division by the zero delta occurs and the result is not NaN. -/
theorem cpu_usage_zero_delta (st0 : CpuState) (s1 s2 : CpuSample)
    (h : cpuTotal s2 = cpuTotal s1) :
    (calculate_cpu_usage (calculate_cpu_usage st0 (some s1)).2 (some s2)).1 = 0 := by
  rw [cpu_state_after]
  simp only [calculate_cpu_usage]
  split_ifs with h1 h2
  · omega
  · rfl
  · rfl

/-- Witness for C6 at a concrete repeated sample. -/
theorem cpu_usage_zero_delta_witness :
    (calculate_cpu_usage
        (calculate_cpu_usage cpuInit (some ⟨3, 0, 0, 1, 0, 0, 0, 0⟩)).2
        (some ⟨3, 0, 0, 1, 0, 0, 0, 0⟩)).1 = 0 :=
  cpu_usage_zero_delta cpuInit ⟨3, 0, 0, 1, 0, 0, 0, 0⟩ ⟨3, 0, 0, 1, 0, 0, 0, 0⟩ rfl

/-- C7: the memory usage is 100 * (1 - available / total) whenever the
    parsed total is strictly positive, 0 when the total is 0, and 0 when
    the meminfo source is unreadable. -/
theorem memory_usage_formula (t a : Int) :
    (0 < t → calculate_memory_usage (some (t, a)) =
        100 * (1 - (a : ℚ) / (t : ℚ))) ∧
      (t = 0 → calculate_memory_usage (some (t, a)) = 0) ∧
      calculate_memory_usage none = 0 := by
  refine ⟨fun h => ?_, fun h => ?_, rfl⟩
  · simp only [calculate_memory_usage]
    rw [if_pos h]
  · simp only [calculate_memory_usage]
    rw [if_neg (by omega)]

/-- Witness for C7 at concrete parsed values. -/
theorem memory_usage_formula_witness :
    calculate_memory_usage (some (4, 1)) = 100 * (1 - ((1 : Int) : ℚ) / ((4 : Int) : ℚ)) ∧
      calculate_memory_usage (some (0, 9)) = 0 ∧
      calculate_memory_usage none = 0 :=
  ⟨(memory_usage_formula 4 1).1 (by decide),
   (memory_usage_formula 0 9).2.1 rfl,
   (memory_usage_formula 0 0).2.2⟩

/-- Counterexample for C4 as stated: with total 100 and parsed available
    200, the reported memory usage is -100, outside [0, 100]. -/
theorem memory_usage_out_of_range_cex :
    calculate_memory_usage (some (100, 200)) = -100 ∧
      ¬(0 ≤ calculate_memory_usage (some (100, 200)) ∧
        calculate_memory_usage (some (100, 200)) ≤ 100) := by
  constructor
  · simp only [calculate_memory_usage]
    norm_num
  · simp only [calculate_memory_usage]
    norm_num

/-- C4 amended: the reported memory usage lies in [0, 100] whenever the
    parsed total is strictly positive and the parsed available value is
    between 0 and the total; the code applies no clamping, so an available
    value above the total produces a negative report. -/
theorem memory_usage_in_range (t a : Int) (h1 : 0 < t) (h2 : 0 ≤ a) (h3 : a ≤ t) :
    0 ≤ calculate_memory_usage (some (t, a)) ∧
      calculate_memory_usage (some (t, a)) ≤ 100 := by
  have ht : (0 : ℚ) < (t : ℚ) := by exact_mod_cast h1
  have ha : (0 : ℚ) ≤ (a : ℚ) := by exact_mod_cast h2
  have hat : (a : ℚ) ≤ (t : ℚ) := by exact_mod_cast h3
  have hq1 : (0 : ℚ) ≤ (a : ℚ) / (t : ℚ) := div_nonneg ha (le_of_lt ht)
  have hq2 : (a : ℚ) / (t : ℚ) ≤ 1 := (div_le_one ht).mpr hat
  simp only [calculate_memory_usage]
  rw [if_pos h1]
  constructor <;> nlinarith

/-- Witness for the amended C4 at concrete parsed values. -/
theorem memory_usage_in_range_witness :
    0 ≤ calculate_memory_usage (some (8, 2)) ∧
      calculate_memory_usage (some (8, 2)) ≤ 100 :=
  memory_usage_in_range 8 2 (by decide) (by decide) (by decide)

/-- Counterexample for C3 as stated: the code performs no clamping, and a
    sample pair whose counters are not monotone (user drops from 5 to 0
    while idle rises to 7) makes the reported usage -250, a negative
    value returned as-is. -/
theorem cpu_usage_negative_cex :
    (calculate_cpu_usage
        (calculate_cpu_usage cpuInit (some ⟨5, 0, 0, 0, 0, 0, 0, 0⟩)).2
        (some ⟨0, 0, 0, 7, 0, 0, 0, 0⟩)).1 = -250 ∧
      (calculate_cpu_usage
          (calculate_cpu_usage cpuInit (some ⟨5, 0, 0, 0, 0, 0, 0, 0⟩)).2
          (some ⟨0, 0, 0, 7, 0, 0, 0, 0⟩)).1 < 0 := by
  have hst : (calculate_cpu_usage cpuInit (some ⟨5, 0, 0, 0, 0, 0, 0, 0⟩)).2 =
      (⟨5, 0⟩ : CpuState) := by
    rw [cpu_state_after]
    rfl
  rw [hst]
  constructor <;> norm_num [calculate_cpu_usage, cpuTotal, cpuIdle]

/-- A read taken with the prior-sample state of s0 and a pointwise larger
    sample s stays within [0, 100]: the idle delta is nonnegative and
    bounded by the total delta. -/
theorem cpu_pair_in_range (s0 s : CpuSample) (h : sampleLE s0 s) :
    0 ≤ (calculate_cpu_usage ⟨cpuTotal s0, cpuIdle s0⟩ (some s)).1 ∧
      (calculate_cpu_usage ⟨cpuTotal s0, cpuIdle s0⟩ (some s)).1 ≤ 100 := by
  obtain ⟨hu, hn, hs, hi, hw, hq, hf, ht⟩ := h
  have hidle : (0 : Int) ≤ cpuIdle s - cpuIdle s0 := by
    unfold cpuIdle; omega
  have hwork : cpuIdle s - cpuIdle s0 ≤ cpuTotal s - cpuTotal s0 := by
    unfold cpuIdle cpuTotal; omega
  simp only [calculate_cpu_usage]
  split_ifs with hp hd
  · have hdq : (0 : ℚ) < ((cpuTotal s - cpuTotal s0 : Int) : ℚ) := by
      exact_mod_cast hd
    have hiq : (0 : ℚ) ≤ ((cpuIdle s - cpuIdle s0 : Int) : ℚ) := by
      exact_mod_cast hidle
    have hle : ((cpuIdle s - cpuIdle s0 : Int) : ℚ) ≤
        ((cpuTotal s - cpuTotal s0 : Int) : ℚ) := by
      exact_mod_cast hwork
    have q1 : (0 : ℚ) ≤ ((cpuIdle s - cpuIdle s0 : Int) : ℚ) /
        ((cpuTotal s - cpuTotal s0 : Int) : ℚ) := div_nonneg hiq (le_of_lt hdq)
    have q2 : ((cpuIdle s - cpuIdle s0 : Int) : ℚ) /
        ((cpuTotal s - cpuTotal s0 : Int) : ℚ) ≤ 1 := (div_le_one hdq).mpr hle
    constructor <;> nlinarith
  · norm_num
  · norm_num

/-- Along a chain of pointwise monotone samples, every output produced
    from the prior-sample state of the chain head stays within [0, 100]. -/
theorem cpu_run_chain_aux (rest : List CpuSample) :
    ∀ s0 : CpuSample, List.Chain sampleLE s0 rest →
      ∀ r ∈ cpuRunOutputs ⟨cpuTotal s0, cpuIdle s0⟩ rest, 0 ≤ r ∧ r ≤ 100 := by
  induction rest with
  | nil =>
    intro s0 _ r hr
    simp [cpuRunOutputs] at hr
  | cons s rest ih =>
    intro s0 hch r hr
    rw [List.chain_cons] at hch
    obtain ⟨hle, hch2⟩ := hch
    simp only [cpuRunOutputs, List.mem_cons] at hr
    rcases hr with rfl | hr
    · exact cpu_pair_in_range s0 s hle
    · rw [cpu_state_after] at hr
      exact ih s hch2 r hr

/-- C3 amended: for every sequence of samples whose eight counters are
    pointwise non-decreasing between successive reads (as kernel CPU
    counters are), every reported usage lies in [0, 100], hence is never
    negative, and every division in the run has a positive denominator,
    so no non-finite value arises; the code performs no clamping, and a
    decreasing counter can make it return a negative value unclamped. -/
theorem cpu_usage_in_range_of_monotone (l : List CpuSample)
    (h : List.Chain' sampleLE l) :
    ∀ r ∈ cpuRunOutputs cpuInit l, 0 ≤ r ∧ r ≤ 100 := by
  cases l with
  | nil =>
    intro r hr
    simp [cpuRunOutputs] at hr
  | cons s rest =>
    intro r hr
    simp only [cpuRunOutputs, List.mem_cons] at hr
    rcases hr with rfl | hr
    · constructor <;> simp [calculate_cpu_usage, cpuInit]
    · rw [cpu_state_after] at hr
      exact cpu_run_chain_aux rest s h r hr

/-- Witness for the amended C3 on a concrete monotone run. -/
theorem cpu_usage_in_range_of_monotone_witness :
    0 ≤ (calculate_cpu_usage cpuInit (some ⟨1, 0, 0, 0, 0, 0, 0, 0⟩)).1 ∧
      (calculate_cpu_usage cpuInit (some ⟨1, 0, 0, 0, 0, 0, 0, 0⟩)).1 ≤ 100 :=
  cpu_usage_in_range_of_monotone
    [⟨1, 0, 0, 0, 0, 0, 0, 0⟩, ⟨2, 0, 0, 1, 0, 0, 0, 0⟩]
    (List.Chain.cons (by decide) List.Chain.nil)
    ((calculate_cpu_usage cpuInit (some ⟨1, 0, 0, 0, 0, 0, 0, 0⟩)).1)
    (by simp [cpuRunOutputs])

/-- C1: for a PID present in the table, when SIGTERM delivery succeeds,
    stop_process returns true, removes the record, and its effect trace is
    exactly SIGTERM, the 500 ms grace wait, the zero-signal liveness
    probe, then SIGKILL when the probe still succeeds; the trace is
    complete at the moment of return, so the return happens only after
    the kill step has been issued. -/
theorem stop_process_effect_order (tbl : ProcTable) (pid : Int) (info : ProcessInfo)
    (k : KillOracle) (hfind : tfind tbl pid = some info)
    (hterm : k.termDelivered = true) :
    (stop_process tbl pid k).1 = true ∧
      (stop_process tbl pid k).2.1 = terase tbl pid ∧
      (stop_process tbl pid k).2.2 =
        [Event.sigterm pid, Event.sleepMs 500, Event.liveProbe pid] ++
          (if k.aliveAfterGrace then [Event.sigkill pid] else []) := by
  simp only [stop_process, hfind, hterm]
  cases h : k.aliveAfterGrace <;> simp [h]

/-- Witness for C1 on a concrete one-entry table. -/
theorem stop_process_effect_order_witness :
    (stop_process [(1, ⟨1, "./work.sh", "t0", "RUNNING"⟩)] 1 ⟨true, true⟩).1 = true ∧
      (stop_process [(1, ⟨1, "./work.sh", "t0", "RUNNING"⟩)] 1 ⟨true, true⟩).2.1 =
        terase [(1, ⟨1, "./work.sh", "t0", "RUNNING"⟩)] 1 ∧
      (stop_process [(1, ⟨1, "./work.sh", "t0", "RUNNING"⟩)] 1 ⟨true, true⟩).2.2 =
        [Event.sigterm 1, Event.sleepMs 500, Event.liveProbe 1] ++
          (if (⟨true, true⟩ : KillOracle).aliveAfterGrace then [Event.sigkill 1]
            else []) :=
  stop_process_effect_order [(1, ⟨1, "./work.sh", "t0", "RUNNING"⟩)] 1
    ⟨1, "./work.sh", "t0", "RUNNING"⟩ ⟨true, true⟩ (by decide) rfl

/-- C8: when the request body yields no script_path (the field is missing
    or its value is empty), handle_start_request answers 400, the process
    table is unchanged, and no fork is attempted, so no child is spawned. -/
theorem start_missing_script_is_400 (tbl : ProcTable) (body : String)
    (forkResult : Int) (now : String)
    (h : parse_json_field body "script_path" = "") :
    (handle_start_request tbl body forkResult now).1.status_code = 400 ∧
      (handle_start_request tbl body forkResult now).2.1 = tbl ∧
      (handle_start_request tbl body forkResult now).2.2 = [] := by
  simp [handle_start_request, h, create_error_response, create_json_response]

/-- Witness for C8 on a body with no script_path field. -/
theorem start_missing_script_is_400_witness :
    (handle_start_request [] "\x7b\x7d" 42 "t0").1.status_code = 400 ∧
      (handle_start_request [] "\x7b\x7d" 42 "t0").2.1 = [] ∧
      (handle_start_request [] "\x7b\x7d" 42 "t0").2.2 = [] :=
  start_missing_script_is_400 [] "\x7b\x7d" 42 "t0" (by decide)

/-- The empty field value never parses as a number. -/
theorem stoi_empty : stoi "" = none := rfl

/-- C2 amended: a stop request whose body carries a numeric PID that is
    absent from the process table is answered with status 500 (the
    "Failed to stop process" internal-failure response, not a 4xx), and
    the process table is unchanged by the request. -/
theorem stop_unknown_pid_is_500 (tbl : ProcTable) (body : String) (k : KillOracle)
    (pid : Int) (hparse : stoi (parse_json_field body "pid") = some pid)
    (habsent : tfind tbl pid = none) :
    (handle_stop_request tbl body k).1.status_code = 500 ∧
      (handle_stop_request tbl body k).2.1 = tbl := by
  have hne : ¬(parse_json_field body "pid" = "") := by
    intro h0
    rw [h0, stoi_empty] at hparse
    exact Option.noConfusion hparse
  simp only [handle_stop_request, if_neg hne, hparse, stop_process, habsent]
  simp [create_error_response, create_json_response]

/-- Witness for the amended C2 on an empty table. -/
theorem stop_unknown_pid_is_500_witness :
    (handle_stop_request [] "\x7b\"pid\":7\x7d" ⟨true, true⟩).1.status_code = 500 ∧
      (handle_stop_request [] "\x7b\"pid\":7\x7d" ⟨true, true⟩).2.1 = [] :=
  stop_unknown_pid_is_500 [] "\x7b\"pid\":7\x7d" ⟨true, true⟩ 7 (by decide) rfl

/-- Counterexample for C2 as stated: for the unknown PID 1 on an empty
    table the response status is 500, which is not in the 4xx range. -/
theorem stop_unknown_pid_not_4xx_cex :
    (handle_stop_request [] "\x7b\"pid\":1\x7d" ⟨true, true⟩).1.status_code = 500 ∧
      ¬(400 ≤ (handle_stop_request [] "\x7b\"pid\":1\x7d" ⟨true, true⟩).1.status_code ∧
        (handle_stop_request [] "\x7b\"pid\":1\x7d" ⟨true, true⟩).1.status_code < 500) := by
  decide

/-- C9: a status snapshot never mutates the process table (only the CPU
    prior-sample state), so two consecutive status calls with no
    intervening start or stop return identical process lists, record for
    record and in the same key order, whatever the metrics inputs of the
    two calls are. -/
theorem status_snapshot_stable (st : AgentState) (c1 c2 : Option CpuSample)
    (m1 m2 : Option (Int × Int)) :
    ((handle_status_request (handle_status_request st c1 m1).2 c2 m2).1).2 =
      ((handle_status_request st c1 m1).1).2 :=
  rfl

/-- Witness for C9 on a concrete state with differing metrics inputs. -/
theorem status_snapshot_stable_witness :
    ((handle_status_request
        (handle_status_request ⟨[(1, ⟨1, "./work.sh", "t0", "RUNNING"⟩)], cpuInit⟩
          (some ⟨1, 0, 0, 0, 0, 0, 0, 0⟩) (some (4, 1))).2
        (some ⟨2, 0, 0, 1, 0, 0, 0, 0⟩) (some (4, 2))).1).2 =
      ((handle_status_request ⟨[(1, ⟨1, "./work.sh", "t0", "RUNNING"⟩)], cpuInit⟩
          (some ⟨1, 0, 0, 0, 0, 0, 0, 0⟩) (some (4, 1))).1).2 :=
  status_snapshot_stable ⟨[(1, ⟨1, "./work.sh", "t0", "RUNNING"⟩)], cpuInit⟩
    (some ⟨1, 0, 0, 0, 0, 0, 0, 0⟩) (some ⟨2, 0, 0, 1, 0, 0, 0, 0⟩)
    (some (4, 1)) (some (4, 2))

/-- Membership after a sorted insert-or-assign: the element is the new
    binding or was already present. -/
theorem tinsert_mem {tbl : ProcTable} {k : Int} {v : ProcessInfo}
    {e : Int × ProcessInfo} (h : e ∈ tinsert tbl k v) : e = (k, v) ∨ e ∈ tbl := by
  induction tbl with
  | nil => simpa [tinsert] using h
  | cons p rest ih =>
    obtain ⟨k2, v2⟩ := p
    simp only [tinsert] at h
    split_ifs at h with h1 h2
    · simpa using h
    · simp only [List.mem_cons] at h
      rcases h with h | h
      · exact Or.inl h
      · exact Or.inr (List.mem_cons_of_mem _ h)
    · simp only [List.mem_cons] at h
      rcases h with h | h
      · exact Or.inr (by simp [h])
      · rcases ih h with h3 | h3
        · exact Or.inl h3
        · exact Or.inr (List.mem_cons_of_mem _ h3)

/-- Membership after an erase implies prior membership. -/
theorem terase_mem {tbl : ProcTable} {k : Int} {e : Int × ProcessInfo}
    (h : e ∈ terase tbl k) : e ∈ tbl := by
  induction tbl with
  | nil => simp [terase] at h
  | cons p rest ih =>
    obtain ⟨k2, v2⟩ := p
    simp only [terase] at h
    split_ifs at h with h1
    · exact List.mem_cons_of_mem _ h
    · simp only [List.mem_cons] at h
      rcases h with h | h
      · exact List.mem_cons.mpr (Or.inl h)
      · exact List.mem_cons_of_mem _ (ih h)

/-- The table produced by stop_process is the old table or the old table
    with the stopped pid erased. -/
theorem stop_process_table_cases (tbl : ProcTable) (pid : Int) (k : KillOracle) :
    (stop_process tbl pid k).2.1 = tbl ∨
      (stop_process tbl pid k).2.1 = terase tbl pid := by
  unfold stop_process
  cases tfind tbl pid with
  | none => exact Or.inl rfl
  | some info =>
    split_ifs
    · exact Or.inr rfl
    · exact Or.inr rfl
    · exact Or.inl rfl

/-- Each operation preserves the table well-formedness. -/
theorem applyOp_preserves_inv {tbl : ProcTable} (hinv : tableInv tbl)
    (op : AgentOp) : tableInv (applyOp tbl op) := by
  cases op with
  | start p f n =>
    intro e he
    simp only [applyOp, start_process] at he
    split_ifs at he with hf
    · rcases tinsert_mem he with h | h
      · rw [h]
        exact ⟨rfl, rfl⟩
      · exact hinv e h
    · exact hinv e he
  | stop pid k =>
    intro e he
    simp only [applyOp] at he
    rcases stop_process_table_cases tbl pid k with h | h
    · rw [h] at he
      exact hinv e he
    · rw [h] at he
      exact hinv e (terase_mem he)
  | snapshot =>
    exact hinv
  | reap alive =>
    intro e he
    simp only [applyOp, cleanup_zombie_processes] at he
    exact hinv e (List.mem_filter.mp he).1

/-- C10: in every process-table state reachable from the empty table by
    any sequence of start, stop, snapshot and reap operations, each entry
    is keyed by the pid stored in its record and every stored record has
    status "RUNNING". -/
theorem node_agent_table_invariant (ops : List AgentOp) :
    tableInv (ops.foldl applyOp []) := by
  have general : ∀ (l : List AgentOp) (tbl : ProcTable),
      tableInv tbl → tableInv (l.foldl applyOp tbl) := by
    intro l
    induction l with
    | nil => intro tbl h; exact h
    | cons op rest ih =>
      intro tbl h
      exact ih _ (applyOp_preserves_inv h op)
  exact general ops [] (by intro e he; simp at he)

/-- Witness for C10 on a concrete operation sequence. -/
theorem node_agent_table_invariant_witness :
    tableInv ([AgentOp.start "./work.sh" 42 "t0",
               AgentOp.start "./other.sh" 43 "t1",
               AgentOp.stop 42 ⟨true, true⟩,
               AgentOp.snapshot].foldl applyOp []) :=
  node_agent_table_invariant
    [AgentOp.start "./work.sh" 42 "t0",
     AgentOp.start "./other.sh" 43 "t1",
     AgentOp.stop 42 ⟨true, true⟩,
     AgentOp.snapshot]
